import Mathlib

/-!
Verification of the deposit-validation and store-metadata core of the
`pandainzoo/lighthouse` repository.

The development shallowly embeds the two source files:
  * `eth2/state_processing/src/per_block_processing/verify_deposit.rs`
  * `beacon_node/store/src/metadata.rs`
External crates (BLS proof-of-possession verification, the Merkle proof
verifier, tree hashing, the pubkey cache of `BeaconState`) are taken as
explicit function parameters, so theorems about the functions below
quantify over every possible behaviour of those externals.
-/

/-! ## Basic types

`Hash256` is a 32-byte value; bytes are modelled as `Nat` (a well-formed
byte list has length 32 and entries below 256, stated where needed).
Rust `u64`/`Slot`/`Epoch` values are modelled as `Nat` with explicit
`< 2 ^ 64` bounds where decoding needs them. -/

abbrev Hash256 := List Nat

/-- `Hash256::repeat_byte(b)`: the 32-byte value with `b` in every byte. -/
def Hash256.repeat_byte (b : Nat) : Hash256 := List.replicate 32 b

/-- The deposit-input record read by the deposit validator:
`deposit.deposit_data.deposit_input` in the source. The
proof-of-possession signature is opaque at this layer (the BLS check is an
external capability). -/
structure DepositInput where
  pubkey : Nat
  withdrawal_credentials : Hash256
  proof_of_possession : Nat
deriving DecidableEq, Repr

/-- `DepositData` as read through `deposit.deposit_data` in the source. -/
structure DepositData where
  amount : Nat
  timestamp : Nat
  deposit_input : DepositInput
deriving DecidableEq, Repr

/-- A `Deposit`.  `proof` is the Merkle branch, `index` the deposit index,
`data` the payload whose tree hash root is the Merkle leaf
(`deposit.data.tree_hash_root()` in `verify_deposit_merkle_proof`); the
hashing itself is external, so `data` is opaque here. -/
structure Deposit where
  proof : List Hash256
  index : Nat
  deposit_data : DepositData
  data : Nat
deriving DecidableEq, Repr

/-- `Eth1Data`: only `deposit_root` is read by this code. -/
structure Eth1Data where
  deposit_root : Hash256
deriving DecidableEq, Repr

/-- `Fork` is opaque to the deposit validator (it is only forwarded to the
external BLS check). -/
structure Fork where
  fork_id : Nat
deriving DecidableEq, Repr

/-- A registry entry; the validator's `withdrawal_credentials` is the only
field the deposit validator reads. -/
structure Validator where
  pubkey : Nat
  withdrawal_credentials : Hash256
deriving DecidableEq, Repr

/-- The fields of `BeaconState` read by `verify_deposit.rs`. -/
structure BeaconState where
  slot : Nat
  fork : Fork
  deposit_index : Nat
  validator_registry : List Validator
  latest_eth1_data : Eth1Data
deriving DecidableEq, Repr

/-- The `ChainSpec` constants consumed by the deposit validator. -/
structure ChainSpec where
  slots_per_epoch : Nat
  deposit_contract_tree_depth : Nat
deriving DecidableEq, Repr

/-- `Slot::epoch(slots_per_epoch)`: integer division. -/
def slot_epoch (slot slots_per_epoch : Nat) : Nat := slot / slots_per_epoch

/-! ## Deposit-validation errors (`DepositInvalid` / `DepositValidationError`) -/

/-- `DepositInvalid` (the `Invalid` alias in the source). -/
inductive DepositInvalid where
  | BadProofOfPossession
  | BadMerkleProof
  | BadIndex (state : Nat) (deposit : Nat)
  | BadWithdrawalCredentials
deriving DecidableEq, Repr

/-- An error of the external `BeaconState` pubkey-cache lookup. -/
inductive BeaconStateError where
  | PubkeyCacheIncomplete
deriving DecidableEq, Repr

/-- `DepositValidationError` (the `Error` alias in the source): either an
invalid deposit or a propagated `BeaconStateError`. -/
inductive DepositValidationError where
  | Invalid (i : DepositInvalid)
  | BeaconStateError (e : BeaconStateError)
deriving DecidableEq, Repr

/-! ## The deposit validator

External capabilities are explicit parameters:
  * `pop` — `DepositInput::validate_proof_of_possession(epoch, fork, spec)`;
  * `tree_hash_root` — `deposit.data.tree_hash_root()`;
  * `verify_merkle_proof` — the `merkle_proof` crate's verifier, taking
    leaf, branch, depth, index and expected root. -/

/-- `verify_deposit_merkle_proof(state, deposit, spec)`: hashes
`deposit.data` and checks the branch `deposit.proof` of length
`spec.deposit_contract_tree_depth` at position `deposit.index` against
`state.latest_eth1_data.deposit_root`. -/
def verify_deposit_merkle_proof
    (tree_hash_root : Nat → Hash256)
    (verify_merkle_proof : Hash256 → List Hash256 → Nat → Nat → Hash256 → Bool)
    (state : BeaconState) (deposit : Deposit) (spec : ChainSpec) : Bool :=
  let leaf := tree_hash_root deposit.data
  verify_merkle_proof leaf deposit.proof
    spec.deposit_contract_tree_depth deposit.index
    state.latest_eth1_data.deposit_root

/-- `verify_deposit(state, deposit, verify_merkle_branch, spec)`:
first the proof-of-possession check over the epoch of `state.slot`,
`state.fork` and `spec`; then, only if `verify_merkle_branch` is set, the
Merkle-inclusion check.  A pure function of its arguments. -/
def verify_deposit
    (pop : DepositInput → Nat → Fork → ChainSpec → Bool)
    (tree_hash_root : Nat → Hash256)
    (verify_merkle_proof : Hash256 → List Hash256 → Nat → Nat → Hash256 → Bool)
    (state : BeaconState) (deposit : Deposit)
    (verify_merkle_branch : Bool) (spec : ChainSpec) :
    Except DepositValidationError Unit :=
  if pop deposit.deposit_data.deposit_input
      (slot_epoch state.slot spec.slots_per_epoch) state.fork spec then
    if verify_merkle_branch then
      if verify_deposit_merkle_proof tree_hash_root verify_merkle_proof
          state deposit spec then
        .ok ()
      else
        .error (.Invalid .BadMerkleProof)
    else
      .ok ()
  else
    .error (.Invalid .BadProofOfPossession)

/-- `verify_deposit_index(state, deposit)`: succeeds exactly when
`deposit.index == state.deposit_index`, otherwise `BadIndex` carrying the
state's and the deposit's index. -/
def verify_deposit_index (state : BeaconState) (deposit : Deposit) :
    Except DepositValidationError Unit :=
  if deposit.index = state.deposit_index then
    .ok ()
  else
    .error (.Invalid (.BadIndex state.deposit_index deposit.index))

/-- `get_existing_validator_index(state, deposit)`.  The external pubkey
cache `get_validator_index` may fail (stale cache) or return an optional
registry index.  The outer `Option` models the possible Rust panic of the
unchecked indexing `state.validator_registry[index as usize]`: `none` is
the panic, `some r` the returned `Result`. -/
def get_existing_validator_index
    (get_validator_index : Nat → Except BeaconStateError (Option Nat))
    (state : BeaconState) (deposit : Deposit) :
    Option (Except DepositValidationError (Option Nat)) :=
  let deposit_input := deposit.deposit_data.deposit_input
  match get_validator_index deposit_input.pubkey with
  | .error e => some (.error (.BeaconStateError e))
  | .ok none => some (.ok none)
  | .ok (some index) =>
    match state.validator_registry[index]? with
    | none => none
    | some v =>
      if deposit_input.withdrawal_credentials = v.withdrawal_credentials then
        some (.ok (some index))
      else
        some (.error (.Invalid .BadWithdrawalCredentials))

/-! ## Claims about the deposit validator -/

/-- C1: `verify_deposit_index(state, deposit)` returns `Ok(())` iff
`deposit.index == state.deposit_index`; on a mismatch it fails with
`BadIndex` carrying expected `state.deposit_index` and actual
`deposit.index` (so `state.deposit_index = 5`, `deposit.index = 6` yields
`BadIndex{5,6}`). -/
theorem verify_deposit_index_iff (state : BeaconState) (deposit : Deposit) :
    (verify_deposit_index state deposit = .ok () ↔
      deposit.index = state.deposit_index) ∧
    (deposit.index ≠ state.deposit_index →
      verify_deposit_index state deposit =
        .error (.Invalid (.BadIndex state.deposit_index deposit.index))) := by
  constructor
  · constructor
    · intro h
      by_contra hne
      simp [verify_deposit_index, hne] at h
    · intro h
      simp [verify_deposit_index, h]
  · intro hne
    simp [verify_deposit_index, hne]

/-- Witness for C1 at `state.deposit_index = 5`, `deposit.index = 6`. -/
theorem verify_deposit_index_iff_witness :
    verify_deposit_index
        ⟨0, ⟨0⟩, 5, [], ⟨Hash256.repeat_byte 0⟩⟩
        ⟨[], 6, ⟨0, 0, ⟨0, Hash256.repeat_byte 0, 0⟩⟩, 0⟩ =
      .error (.Invalid (.BadIndex 5 6)) :=
  (verify_deposit_index_iff
      ⟨0, ⟨0⟩, 5, [], ⟨Hash256.repeat_byte 0⟩⟩
      ⟨[], 6, ⟨0, 0, ⟨0, Hash256.repeat_byte 0, 0⟩⟩, 0⟩).2 (by decide)

/-- C4: `verify_deposit` is a pure function whose result does not depend on
`state.deposit_index`: replacing that field by any two values — all other
fields, the deposit, the flag, the spec and the external capabilities held
fixed — yields the same result.  (Mutation-freedom is by construction: the
embedding returns a value and takes the state immutably.) -/
theorem verify_deposit_ignores_deposit_index
    (pop : DepositInput → Nat → Fork → ChainSpec → Bool)
    (tree_hash_root : Nat → Hash256)
    (verify_merkle_proof : Hash256 → List Hash256 → Nat → Nat → Hash256 → Bool)
    (state : BeaconState) (deposit : Deposit)
    (verify_merkle_branch : Bool) (spec : ChainSpec) (x y : Nat) :
    verify_deposit pop tree_hash_root verify_merkle_proof
        { state with deposit_index := x } deposit verify_merkle_branch spec =
      verify_deposit pop tree_hash_root verify_merkle_proof
        { state with deposit_index := y } deposit verify_merkle_branch spec := rfl

/-- C2: with `verify_merkle_branch = true` and a passing
proof-of-possession check, `verify_deposit` invokes the external Merkle
verifier on exactly the leaf hash of `deposit.data`, the branch
`deposit.proof`, depth `spec.deposit_contract_tree_depth`, position
`deposit.index` and expected root `state.latest_eth1_data.deposit_root`,
failing with `BadMerkleProof` exactly when that verification returns
false; with `verify_merkle_branch = false` the Merkle check is skipped and
the result is `Ok(())` whatever the verifier would say. -/
theorem verify_deposit_merkle_wiring
    (pop : DepositInput → Nat → Fork → ChainSpec → Bool)
    (tree_hash_root : Nat → Hash256)
    (verify_merkle_proof : Hash256 → List Hash256 → Nat → Nat → Hash256 → Bool)
    (state : BeaconState) (deposit : Deposit) (spec : ChainSpec)
    (hpop : pop deposit.deposit_data.deposit_input
        (slot_epoch state.slot spec.slots_per_epoch) state.fork spec = true) :
    (verify_deposit pop tree_hash_root verify_merkle_proof
        state deposit true spec =
      if verify_merkle_proof (tree_hash_root deposit.data) deposit.proof
          spec.deposit_contract_tree_depth deposit.index
          state.latest_eth1_data.deposit_root then
        .ok ()
      else
        .error (.Invalid .BadMerkleProof)) ∧
    verify_deposit pop tree_hash_root verify_merkle_proof
        state deposit false spec = .ok () := by
  constructor
  · simp [verify_deposit, hpop, verify_deposit_merkle_proof]
  · simp [verify_deposit, hpop]

/-- Witness for C2: a concrete state/deposit with an always-true
proof-of-possession check and an always-false Merkle verifier yields
`BadMerkleProof` on `verify_merkle_branch = true` and `Ok` on `false`. -/
theorem verify_deposit_merkle_wiring_witness :
    verify_deposit (fun _ _ _ _ => true) (fun _ => Hash256.repeat_byte 7)
        (fun _ _ _ _ _ => false)
        ⟨3, ⟨0⟩, 0, [], ⟨Hash256.repeat_byte 9⟩⟩
        ⟨[Hash256.repeat_byte 1], 0, ⟨0, 0, ⟨0, Hash256.repeat_byte 0, 0⟩⟩, 0⟩
        true ⟨2, 1⟩ =
      .error (.Invalid .BadMerkleProof) ∧
    verify_deposit (fun _ _ _ _ => true) (fun _ => Hash256.repeat_byte 7)
        (fun _ _ _ _ _ => false)
        ⟨3, ⟨0⟩, 0, [], ⟨Hash256.repeat_byte 9⟩⟩
        ⟨[Hash256.repeat_byte 1], 0, ⟨0, 0, ⟨0, Hash256.repeat_byte 0, 0⟩⟩, 0⟩
        false ⟨2, 1⟩ = .ok () := by
  have h := verify_deposit_merkle_wiring (fun _ _ _ _ => true)
    (fun _ => Hash256.repeat_byte 7) (fun _ _ _ _ _ => false)
    ⟨3, ⟨0⟩, 0, [], ⟨Hash256.repeat_byte 9⟩⟩
    ⟨[Hash256.repeat_byte 1], 0, ⟨0, 0, ⟨0, Hash256.repeat_byte 0, 0⟩⟩, 0⟩
    ⟨2, 1⟩ rfl
  exact ⟨h.1, h.2⟩

/-- C3: whenever the pubkey-cache lookup succeeds,
`get_existing_validator_index` returns `Ok(None)` on an absent pubkey; on
a pubkey registered at index `i` (in bounds, so the registry holds a
validator `v` there) it returns `Ok(Some(i))` when the deposit's
withdrawal credentials equal `v`'s byte-for-byte and fails with
`BadWithdrawalCredentials` otherwise. -/
theorem get_existing_validator_index_spec
    (get_validator_index : Nat → Except BeaconStateError (Option Nat))
    (state : BeaconState) (deposit : Deposit) :
    (get_validator_index deposit.deposit_data.deposit_input.pubkey =
        .ok none →
      get_existing_validator_index get_validator_index state deposit =
        some (.ok none)) ∧
    (∀ i v,
      get_validator_index deposit.deposit_data.deposit_input.pubkey =
        .ok (some i) →
      state.validator_registry[i]? = some v →
      (deposit.deposit_data.deposit_input.withdrawal_credentials =
          v.withdrawal_credentials →
        get_existing_validator_index get_validator_index state deposit =
          some (.ok (some i))) ∧
      (deposit.deposit_data.deposit_input.withdrawal_credentials ≠
          v.withdrawal_credentials →
        get_existing_validator_index get_validator_index state deposit =
          some (.error (.Invalid .BadWithdrawalCredentials)))) := by
  constructor
  · intro h
    simp [get_existing_validator_index, h]
  · intro i v hi hv
    constructor
    · intro heq
      simp [get_existing_validator_index, hi, hv, heq]
    · intro hne
      simp [get_existing_validator_index, hi, hv, hne]

/-- Witness for C3: a one-validator registry, a cache mapping pubkey `1`
to index `0`, and a deposit whose credentials mismatch the registered
ones, is rejected with `BadWithdrawalCredentials`; with matching
credentials the existing index `0` is returned. -/
theorem get_existing_validator_index_spec_witness :
    get_existing_validator_index
        (fun pk => if pk = 1 then .ok (some 0) else .ok none)
        ⟨0, ⟨0⟩, 0, [⟨1, Hash256.repeat_byte 4⟩], ⟨Hash256.repeat_byte 0⟩⟩
        ⟨[], 0, ⟨0, 0, ⟨1, Hash256.repeat_byte 5, 0⟩⟩, 0⟩ =
      some (.error (.Invalid .BadWithdrawalCredentials)) ∧
    get_existing_validator_index
        (fun pk => if pk = 1 then .ok (some 0) else .ok none)
        ⟨0, ⟨0⟩, 0, [⟨1, Hash256.repeat_byte 4⟩], ⟨Hash256.repeat_byte 0⟩⟩
        ⟨[], 0, ⟨0, 0, ⟨1, Hash256.repeat_byte 4, 0⟩⟩, 0⟩ =
      some (.ok (some 0)) := by
  have h1 := (get_existing_validator_index_spec
      (fun pk => if pk = 1 then .ok (some 0) else .ok none)
      ⟨0, ⟨0⟩, 0, [⟨1, Hash256.repeat_byte 4⟩], ⟨Hash256.repeat_byte 0⟩⟩
      ⟨[], 0, ⟨0, 0, ⟨1, Hash256.repeat_byte 5, 0⟩⟩, 0⟩).2
      0 ⟨1, Hash256.repeat_byte 4⟩ rfl rfl
  have h2 := (get_existing_validator_index_spec
      (fun pk => if pk = 1 then .ok (some 0) else .ok none)
      ⟨0, ⟨0⟩, 0, [⟨1, Hash256.repeat_byte 4⟩], ⟨Hash256.repeat_byte 0⟩⟩
      ⟨[], 0, ⟨0, 0, ⟨1, Hash256.repeat_byte 4, 0⟩⟩, 0⟩).2
      0 ⟨1, Hash256.repeat_byte 4⟩ rfl rfl
  exact ⟨h1.2 (by decide), h2.1 (by decide)⟩

/-- C10: under the precondition that the pubkey cache only ever yields
indices strictly below the registry length, the unchecked indexing
`state.validator_registry[index as usize]` inside
`get_existing_validator_index` is in bounds, so the function is total:
the panic case (modelled by `none`) is unreachable. -/
theorem get_existing_validator_index_no_panic
    (get_validator_index : Nat → Except BeaconStateError (Option Nat))
    (state : BeaconState) (deposit : Deposit)
    (hcache : ∀ pk i, get_validator_index pk = .ok (some i) →
      i < state.validator_registry.length) :
    (get_existing_validator_index get_validator_index state deposit).isSome =
      true := by
  unfold get_existing_validator_index
  cases hlook : get_validator_index deposit.deposit_data.deposit_input.pubkey with
  | error e => simp [hlook]
  | ok o =>
    cases o with
    | none => simp [hlook]
    | some i =>
      have hlt := hcache _ _ hlook
      have hsome := List.getElem?_eq_getElem hlt
      cases hv : state.validator_registry[i]? with
      | none => rw [hv] at hsome; cases hsome
      | some v =>
        by_cases hw : deposit.deposit_data.deposit_input.withdrawal_credentials
            = v.withdrawal_credentials
        · simp [hlook, hv, hw]
        · simp [hlook, hv, hw]

/-- Witness for C10: a singleton registry with a cache that only returns
index `0` never panics. -/
theorem get_existing_validator_index_no_panic_witness :
    (get_existing_validator_index
        (fun pk => if pk = 1 then .ok (some 0) else .ok none)
        ⟨0, ⟨0⟩, 0, [⟨1, Hash256.repeat_byte 4⟩], ⟨Hash256.repeat_byte 0⟩⟩
        ⟨[], 0, ⟨0, 0, ⟨1, Hash256.repeat_byte 4, 0⟩⟩, 0⟩).isSome = true :=
  get_existing_validator_index_no_panic
    (fun pk => if pk = 1 then .ok (some 0) else .ok none)
    ⟨0, ⟨0⟩, 0, [⟨1, Hash256.repeat_byte 4⟩], ⟨Hash256.repeat_byte 0⟩⟩
    ⟨[], 0, ⟨0, 0, ⟨1, Hash256.repeat_byte 4, 0⟩⟩, 0⟩
    (by
      intro pk i h
      by_cases hpk : pk = 1
      · simp [hpk] at h
        simp [h.symm]
      · simp [hpk] at h)

/-! ## Store metadata (`beacon_node/store/src/metadata.rs`)

The record types, their reserved keys, `block_backfill_complete`, and the
`StoreItem` impls.  The `ssz` crate is not part of `src/`, so the
canonical codec below is modelled from the spec (§6): fixed-width
unsigned integers little-endian, composite records as ordered
concatenation of field encodings, fixed-size fields inline, optional
fields length-prefixed. -/

/-- `DBColumn`: only the `BeaconMeta` variant is used by this file. -/
inductive DBColumn where
  | BeaconMeta
deriving DecidableEq, Repr

/-- Store-level errors: decode failure (corruption), schema downgrade and
forward-migration failure (§7 of the spec). -/
inductive StoreError where
  | SszDecodeError
  | SchemaDowngrade (on_disk : Nat) (current : Nat)
  | MigrationFailed (at_version : Nat)
deriving DecidableEq, Repr

/-- Modelled from the spec: little-endian fixed-width encoding of an
unsigned integer into `k` bytes (the `ssz` crate is not under `src/`). -/
def toLEBytes : Nat → Nat → List Nat
  | 0, _ => []
  | k + 1, n => n % 256 :: toLEBytes k (n / 256)

/-- Modelled from the spec: little-endian reassembly of a byte list. -/
def fromLEBytes : List Nat → Nat
  | [] => 0
  | b :: bs => b + 256 * fromLEBytes bs

/-- `u64::as_ssz_bytes`: 8 bytes, little-endian. -/
def encode_u64 (n : Nat) : List Nat := toLEBytes 8 n

/-- `u64::from_ssz_bytes`: exactly 8 bytes or a decode error. -/
def decode_u64 (bytes : List Nat) : Except StoreError Nat :=
  if bytes.length = 8 then .ok (fromLEBytes bytes) else .error .SszDecodeError

theorem toLEBytes_length (k n : Nat) : (toLEBytes k n).length = k := by
  induction k generalizing n with
  | zero => rfl
  | succ k ih => simp [toLEBytes, ih]

theorem fromLEBytes_toLEBytes (k n : Nat) (h : n < 256 ^ k) :
    fromLEBytes (toLEBytes k n) = n := by
  induction k generalizing n with
  | zero =>
    interval_cases n
    rfl
  | succ k ih =>
    have hdiv : n / 256 < 256 ^ k := by
      apply Nat.div_lt_of_lt_mul
      calc n < 256 ^ (k + 1) := h
        _ = 256 * 256 ^ k := by ring
    simp [toLEBytes, fromLEBytes, ih _ hdiv, Nat.mod_add_div]

/-- Round trip of the modelled fixed-width integer codec. -/
theorem decode_encode_u64 (n : Nat) (h : n < 2 ^ 64) :
    decode_u64 (encode_u64 n) = .ok n := by
  have hlen := toLEBytes_length 8 n
  have hval : fromLEBytes (toLEBytes 8 n) = n := by
    apply fromLEBytes_toLEBytes
    calc n < 2 ^ 64 := h
      _ = 256 ^ 8 := by norm_num
  simp [decode_u64, encode_u64, hlen, hval]

/-! ### Constants and keys -/

/-- `SchemaVersion`: a single unsigned 64-bit integer. -/
structure SchemaVersion where
  version : Nat
deriving DecidableEq, Repr

/-- `SchemaVersion::as_u64`. -/
def SchemaVersion.as_u64 (s : SchemaVersion) : Nat := s.version

/-- `CURRENT_SCHEMA_VERSION = SchemaVersion(21)`. -/
def CURRENT_SCHEMA_VERSION : SchemaVersion := ⟨21⟩

/-- `SCHEMA_VERSION_KEY = Hash256::repeat_byte(0)`. -/
def SCHEMA_VERSION_KEY : Hash256 := Hash256.repeat_byte 0

/-- `CONFIG_KEY = Hash256::repeat_byte(1)`. -/
def CONFIG_KEY : Hash256 := Hash256.repeat_byte 1

/-- `SPLIT_KEY = Hash256::repeat_byte(2)`. -/
def SPLIT_KEY : Hash256 := Hash256.repeat_byte 2

/-- `PRUNING_CHECKPOINT_KEY = Hash256::repeat_byte(3)`. -/
def PRUNING_CHECKPOINT_KEY : Hash256 := Hash256.repeat_byte 3

/-- `COMPACTION_TIMESTAMP_KEY = Hash256::repeat_byte(4)`. -/
def COMPACTION_TIMESTAMP_KEY : Hash256 := Hash256.repeat_byte 4

/-- `ANCHOR_INFO_KEY = Hash256::repeat_byte(5)`. -/
def ANCHOR_INFO_KEY : Hash256 := Hash256.repeat_byte 5

/-- `BLOB_INFO_KEY = Hash256::repeat_byte(6)`. -/
def BLOB_INFO_KEY : Hash256 := Hash256.repeat_byte 6

/-- `STATE_UPPER_LIMIT_NO_RETAIN = Slot::new(u64::MAX)`. -/
def STATE_UPPER_LIMIT_NO_RETAIN : Nat := 2 ^ 64 - 1

/-! ### The record types and their `StoreItem` impls -/

/-- `Checkpoint` (from the external `types` crate): epoch and block root. -/
structure Checkpoint where
  epoch : Nat
  root : Hash256
deriving DecidableEq, Repr

/-- `PruningCheckpoint`: wraps a `Checkpoint`. -/
structure PruningCheckpoint where
  checkpoint : Checkpoint
deriving DecidableEq, Repr

/-- `CompactionTimestamp`: a single `u64`. -/
structure CompactionTimestamp where
  timestamp : Nat
deriving DecidableEq, Repr

/-- `AnchorInfo`: the five-slot/hash record for weak-subjectivity sync. -/
structure AnchorInfo where
  anchor_slot : Nat
  oldest_block_slot : Nat
  oldest_block_parent : Hash256
  state_upper_limit : Nat
  state_lower_limit : Nat
deriving DecidableEq, Repr

/-- `AnchorInfo::block_backfill_complete(target_slot)`:
`self.oldest_block_slot <= target_slot`. -/
def AnchorInfo.block_backfill_complete (a : AnchorInfo) (target_slot : Nat) :
    Bool :=
  a.oldest_block_slot ≤ target_slot

/-- `BlobInfo`: optional oldest blob slot plus the deprecated `blobs_db`
flag. -/
structure BlobInfo where
  oldest_blob_slot : Option Nat
  blobs_db : Bool
deriving DecidableEq, Repr

/-- The Rust `#[derive(Default)]` on `BlobInfo`: each field takes its
type's default, `None` for `Option<Slot>` and `false` for `bool`. -/
def BlobInfo.default : BlobInfo :=
  { oldest_blob_slot := none, blobs_db := false }

/-- `SchemaVersion::db_column`. -/
def SchemaVersion.db_column : DBColumn := .BeaconMeta

/-- `SchemaVersion::as_store_bytes`: SSZ of the wrapped `u64`. -/
def SchemaVersion.as_store_bytes (s : SchemaVersion) : List Nat :=
  encode_u64 s.version

/-- `SchemaVersion::from_store_bytes`. -/
def SchemaVersion.from_store_bytes (bytes : List Nat) :
    Except StoreError SchemaVersion := do
  pure ⟨← decode_u64 bytes⟩

/-- `PruningCheckpoint::db_column`. -/
def PruningCheckpoint.db_column : DBColumn := .BeaconMeta

/-- `Checkpoint::as_ssz_bytes` (modelled from the spec: ordered
concatenation of the fixed-size fields). -/
def Checkpoint.as_ssz_bytes (c : Checkpoint) : List Nat :=
  encode_u64 c.epoch ++ c.root

/-- `Checkpoint::from_ssz_bytes` (modelled from the spec): 40 bytes,
epoch then root. -/
def Checkpoint.from_ssz_bytes (bytes : List Nat) :
    Except StoreError Checkpoint :=
  if bytes.length = 40 then do
    pure ⟨← decode_u64 (bytes.take 8), bytes.drop 8⟩
  else .error .SszDecodeError

/-- `PruningCheckpoint::as_store_bytes`: SSZ of the wrapped checkpoint. -/
def PruningCheckpoint.as_store_bytes (p : PruningCheckpoint) : List Nat :=
  p.checkpoint.as_ssz_bytes

/-- `PruningCheckpoint::from_store_bytes`. -/
def PruningCheckpoint.from_store_bytes (bytes : List Nat) :
    Except StoreError PruningCheckpoint := do
  pure ⟨← Checkpoint.from_ssz_bytes bytes⟩

/-- `CompactionTimestamp::db_column`. -/
def CompactionTimestamp.db_column : DBColumn := .BeaconMeta

/-- `CompactionTimestamp::as_store_bytes`. -/
def CompactionTimestamp.as_store_bytes (c : CompactionTimestamp) : List Nat :=
  encode_u64 c.timestamp

/-- `CompactionTimestamp::from_store_bytes`. -/
def CompactionTimestamp.from_store_bytes (bytes : List Nat) :
    Except StoreError CompactionTimestamp := do
  pure ⟨← decode_u64 bytes⟩

/-- `AnchorInfo::db_column`. -/
def AnchorInfo.db_column : DBColumn := .BeaconMeta

/-- `AnchorInfo::as_store_bytes` = derived SSZ encode (modelled from the
spec): the five fixed-size fields concatenated in declaration order. -/
def AnchorInfo.as_store_bytes (a : AnchorInfo) : List Nat :=
  encode_u64 a.anchor_slot ++ encode_u64 a.oldest_block_slot ++
    a.oldest_block_parent ++ encode_u64 a.state_upper_limit ++
    encode_u64 a.state_lower_limit

/-- `AnchorInfo::from_store_bytes` = derived SSZ decode (modelled from the
spec): 64 bytes split at offsets 8, 16, 48, 56. -/
def AnchorInfo.from_store_bytes (bytes : List Nat) :
    Except StoreError AnchorInfo :=
  if bytes.length = 64 then do
    pure ⟨← decode_u64 (bytes.take 8),
      ← decode_u64 ((bytes.drop 8).take 8),
      ((bytes.drop 8).drop 8).take 32,
      ← decode_u64 ((((bytes.drop 8).drop 8).drop 32).take 8),
      ← decode_u64 ((((bytes.drop 8).drop 8).drop 32).drop 8)⟩
  else .error .SszDecodeError

/-- `BlobInfo::db_column`. -/
def BlobInfo.db_column : DBColumn := .BeaconMeta

/-- Modelled from the spec: a length-prefixed optional slot (`0` marks an
absent value, `8` a present 8-byte little-endian slot). -/
def encode_option_slot : Option Nat → List Nat
  | none => [0]
  | some s => 8 :: encode_u64 s

/-- Modelled from the spec: a boolean as one byte, `0` or `1`; anything
else is a decode error. -/
def encode_bool (b : Bool) : List Nat := [if b then 1 else 0]

/-- `BlobInfo::as_store_bytes` = derived SSZ encode (modelled from the
spec): the length-prefixed optional slot followed by the flag byte. -/
def BlobInfo.as_store_bytes (b : BlobInfo) : List Nat :=
  encode_option_slot b.oldest_blob_slot ++ encode_bool b.blobs_db

/-- `BlobInfo::from_store_bytes` = derived SSZ decode (modelled from the
spec). -/
def BlobInfo.from_store_bytes (bytes : List Nat) :
    Except StoreError BlobInfo :=
  match bytes with
  | 0 :: rest =>
    match rest with
    | [0] => .ok ⟨none, false⟩
    | [1] => .ok ⟨none, true⟩
    | _ => .error .SszDecodeError
  | 8 :: rest =>
    if rest.length = 9 then do
      let slot ← decode_u64 (rest.take 8)
      match rest.drop 8 with
      | [0] => pure ⟨some slot, false⟩
      | [1] => pure ⟨some slot, true⟩
      | _ => .error .SszDecodeError
    else .error .SszDecodeError
  | _ => .error .SszDecodeError

/-! ### Round-trip lemmas for the individual record types -/

theorem SchemaVersion_round_trip (s : SchemaVersion) (h : s.version < 2 ^ 64) :
    SchemaVersion.from_store_bytes s.as_store_bytes = .ok s := by
  simp [SchemaVersion.from_store_bytes, SchemaVersion.as_store_bytes,
    decode_encode_u64 _ h, Bind.bind, Except.bind, pure, Except.pure]

theorem CompactionTimestamp_round_trip (c : CompactionTimestamp)
    (h : c.timestamp < 2 ^ 64) :
    CompactionTimestamp.from_store_bytes c.as_store_bytes = .ok c := by
  simp [CompactionTimestamp.from_store_bytes, CompactionTimestamp.as_store_bytes,
    decode_encode_u64 _ h, Bind.bind, Except.bind, pure, Except.pure]

theorem PruningCheckpoint_round_trip (p : PruningCheckpoint)
    (he : p.checkpoint.epoch < 2 ^ 64) (hr : p.checkpoint.root.length = 32) :
    PruningCheckpoint.from_store_bytes p.as_store_bytes = .ok p := by
  have hlen : (encode_u64 p.checkpoint.epoch).length = 8 := toLEBytes_length 8 _
  have hall : (encode_u64 p.checkpoint.epoch ++ p.checkpoint.root).length = 40 := by
    simp [hlen, hr]
  simp [PruningCheckpoint.from_store_bytes, PruningCheckpoint.as_store_bytes,
    Checkpoint.from_ssz_bytes, Checkpoint.as_ssz_bytes, hall,
    List.take_left' hlen, List.drop_left' hlen, decode_encode_u64 _ he,
    Bind.bind, Except.bind, pure, Except.pure]

theorem AnchorInfo_round_trip (a : AnchorInfo)
    (h1 : a.anchor_slot < 2 ^ 64) (h2 : a.oldest_block_slot < 2 ^ 64)
    (h3 : a.oldest_block_parent.length = 32)
    (h4 : a.state_upper_limit < 2 ^ 64) (h5 : a.state_lower_limit < 2 ^ 64) :
    AnchorInfo.from_store_bytes a.as_store_bytes = .ok a := by
  have l1 : (encode_u64 a.anchor_slot).length = 8 := toLEBytes_length 8 _
  have l2 : (encode_u64 a.oldest_block_slot).length = 8 := toLEBytes_length 8 _
  have l4 : (encode_u64 a.state_upper_limit).length = 8 := toLEBytes_length 8 _
  have l5 : (encode_u64 a.state_lower_limit).length = 8 := toLEBytes_length 8 _
  have hall : a.as_store_bytes.length = 64 := by
    simp [AnchorInfo.as_store_bytes, l1, l2, h3, l4, l5]
  unfold AnchorInfo.from_store_bytes
  rw [if_pos hall]
  unfold AnchorInfo.as_store_bytes
  simp only [List.append_assoc]
  rw [List.take_left' l1, List.drop_left' l1, List.take_left' l2,
    List.drop_left' l2, List.take_left' h3, List.drop_left' h3,
    List.take_left' l4, List.drop_left' l4,
    decode_encode_u64 _ h1, decode_encode_u64 _ h2, decode_encode_u64 _ h4,
    decode_encode_u64 _ h5]
  rfl

theorem BlobInfo_round_trip (b : BlobInfo)
    (h : ∀ s, b.oldest_blob_slot = some s → s < 2 ^ 64) :
    BlobInfo.from_store_bytes b.as_store_bytes = .ok b := by
  obtain ⟨o, d⟩ := b
  cases o with
  | none =>
    cases d <;> rfl
  | some s =>
    have hs : s < 2 ^ 64 := h s rfl
    have hlen : (encode_u64 s).length = 8 := toLEBytes_length 8 _
    have hrest : (encode_u64 s ++ encode_bool d).length = 9 := by
      cases d <;> simp [hlen, encode_bool]
    have hdec : decode_u64 (encode_u64 s) = .ok s := decode_encode_u64 _ hs
    cases d <;>
      simp [BlobInfo.from_store_bytes, BlobInfo.as_store_bytes,
        encode_option_slot, encode_bool, hrest, hlen,
        List.take_left' hlen, List.drop_left' hlen, hdec,
        Bind.bind, Except.bind, pure, Except.pure]

/-! ## Claims about the metadata records -/

/-- C5: `block_backfill_complete(T)` is exactly `oldest_block_slot ≤ T`;
in particular with `oldest_block_slot = 100` it is `false` at `99` and
`true` at `100` and `101`. -/
theorem block_backfill_complete_iff (a : AnchorInfo) (T : Nat) :
    (a.block_backfill_complete T = true ↔ a.oldest_block_slot ≤ T) ∧
    (a.oldest_block_slot = 100 →
      a.block_backfill_complete 99 = false ∧
      a.block_backfill_complete 100 = true ∧
      a.block_backfill_complete 101 = true) := by
  constructor
  · simp [AnchorInfo.block_backfill_complete]
  · intro h
    simp [AnchorInfo.block_backfill_complete, h]

/-- Witness for C5 at `oldest_block_slot = 100`. -/
theorem block_backfill_complete_iff_witness :
    AnchorInfo.block_backfill_complete ⟨200, 100, Hash256.repeat_byte 0, 0, 0⟩
        99 = false ∧
    AnchorInfo.block_backfill_complete ⟨200, 100, Hash256.repeat_byte 0, 0, 0⟩
        100 = true ∧
    AnchorInfo.block_backfill_complete ⟨200, 100, Hash256.repeat_byte 0, 0, 0⟩
        101 = true :=
  (block_backfill_complete_iff ⟨200, 100, Hash256.repeat_byte 0, 0, 0⟩ 0).2 rfl

/-- C6: every metadata record type round-trips through its store codec:
`from_store_bytes (as_store_bytes x) = Ok x` for every valid value —
`u64` fields below `2 ^ 64`, 32-byte roots — including the boundary
values `oldest_blob_slot = None` and
`state_upper_limit = STATE_UPPER_LIMIT_NO_RETAIN`. -/
theorem store_items_round_trip :
    (∀ s : SchemaVersion, s.version < 2 ^ 64 →
      SchemaVersion.from_store_bytes s.as_store_bytes = .ok s) ∧
    (∀ p : PruningCheckpoint, p.checkpoint.epoch < 2 ^ 64 →
      p.checkpoint.root.length = 32 →
      PruningCheckpoint.from_store_bytes p.as_store_bytes = .ok p) ∧
    (∀ c : CompactionTimestamp, c.timestamp < 2 ^ 64 →
      CompactionTimestamp.from_store_bytes c.as_store_bytes = .ok c) ∧
    (∀ a : AnchorInfo, a.anchor_slot < 2 ^ 64 →
      a.oldest_block_slot < 2 ^ 64 → a.oldest_block_parent.length = 32 →
      a.state_upper_limit < 2 ^ 64 → a.state_lower_limit < 2 ^ 64 →
      AnchorInfo.from_store_bytes a.as_store_bytes = .ok a) ∧
    (∀ b : BlobInfo, (∀ s, b.oldest_blob_slot = some s → s < 2 ^ 64) →
      BlobInfo.from_store_bytes b.as_store_bytes = .ok b) :=
  ⟨fun s h => SchemaVersion_round_trip s h,
   fun p he hr => PruningCheckpoint_round_trip p he hr,
   fun c h => CompactionTimestamp_round_trip c h,
   fun a h1 h2 h3 h4 h5 => AnchorInfo_round_trip a h1 h2 h3 h4 h5,
   fun b h => BlobInfo_round_trip b h⟩

/-- Witness for C6 at the boundary values: the `AnchorInfo` with
`state_upper_limit = STATE_UPPER_LIMIT_NO_RETAIN` (`u64::MAX`) and the
`BlobInfo` with `oldest_blob_slot = None`, plus one value of each other
record type. -/
theorem store_items_round_trip_witness :
    SchemaVersion.from_store_bytes (SchemaVersion.as_store_bytes ⟨21⟩) =
      .ok ⟨21⟩ ∧
    PruningCheckpoint.from_store_bytes
        (PruningCheckpoint.as_store_bytes ⟨⟨7, Hash256.repeat_byte 3⟩⟩) =
      .ok ⟨⟨7, Hash256.repeat_byte 3⟩⟩ ∧
    CompactionTimestamp.from_store_bytes
        (CompactionTimestamp.as_store_bytes ⟨1234567890⟩) =
      .ok ⟨1234567890⟩ ∧
    AnchorInfo.from_store_bytes
        (AnchorInfo.as_store_bytes
          ⟨5, 3, Hash256.repeat_byte 2, STATE_UPPER_LIMIT_NO_RETAIN, 1⟩) =
      .ok ⟨5, 3, Hash256.repeat_byte 2, STATE_UPPER_LIMIT_NO_RETAIN, 1⟩ ∧
    BlobInfo.from_store_bytes (BlobInfo.as_store_bytes ⟨none, true⟩) =
      .ok ⟨none, true⟩ :=
  ⟨store_items_round_trip.1 ⟨21⟩ (by norm_num),
   store_items_round_trip.2.1 ⟨⟨7, Hash256.repeat_byte 3⟩⟩ (by norm_num)
     (by decide),
   store_items_round_trip.2.2.1 ⟨1234567890⟩ (by norm_num),
   store_items_round_trip.2.2.2.1
     ⟨5, 3, Hash256.repeat_byte 2, STATE_UPPER_LIMIT_NO_RETAIN, 1⟩
     (by norm_num) (by norm_num) (by decide)
     (by norm_num [STATE_UPPER_LIMIT_NO_RETAIN]) (by norm_num),
   store_items_round_trip.2.2.2.2 ⟨none, true⟩ (by simp)⟩

/-- C7 counterexample: the claim "the default `BlobInfo` has
`oldest_blob_slot = None` and `blobs_db = true`" is false on the code:
`BlobInfo` takes its `Default` from the Rust derive, whose `bool` default
is `false`, not `true`. -/
theorem blob_info_default_not_all_true :
    ¬ (BlobInfo.default.oldest_blob_slot = none ∧
      BlobInfo.default.blobs_db = true) := by
  intro h
  exact absurd h.2 (by decide)

/-- C7 (amended): the derived default `BlobInfo` value has
`oldest_blob_slot = None` and `blobs_db = false`. -/
theorem blob_info_default_fields :
    BlobInfo.default.oldest_blob_slot = none ∧
    BlobInfo.default.blobs_db = false := by
  exact ⟨rfl, rfl⟩

/-- C8: every reserved metadata key is the 32-byte value with one byte
repeated — `0x00` for the schema version through `0x06` for the blob
info — `CURRENT_SCHEMA_VERSION` is 21, and all five record types declare
the single `BeaconMeta` column. -/
theorem metadata_keys_and_columns :
    SCHEMA_VERSION_KEY = List.replicate 32 0 ∧
    CONFIG_KEY = List.replicate 32 1 ∧
    SPLIT_KEY = List.replicate 32 2 ∧
    PRUNING_CHECKPOINT_KEY = List.replicate 32 3 ∧
    COMPACTION_TIMESTAMP_KEY = List.replicate 32 4 ∧
    ANCHOR_INFO_KEY = List.replicate 32 5 ∧
    BLOB_INFO_KEY = List.replicate 32 6 ∧
    (SCHEMA_VERSION_KEY.length = 32 ∧ CONFIG_KEY.length = 32 ∧
      SPLIT_KEY.length = 32 ∧ PRUNING_CHECKPOINT_KEY.length = 32 ∧
      COMPACTION_TIMESTAMP_KEY.length = 32 ∧ ANCHOR_INFO_KEY.length = 32 ∧
      BLOB_INFO_KEY.length = 32) ∧
    CURRENT_SCHEMA_VERSION.as_u64 = 21 ∧
    (SchemaVersion.db_column = DBColumn.BeaconMeta ∧
      PruningCheckpoint.db_column = DBColumn.BeaconMeta ∧
      CompactionTimestamp.db_column = DBColumn.BeaconMeta ∧
      AnchorInfo.db_column = DBColumn.BeaconMeta ∧
      BlobInfo.db_column = DBColumn.BeaconMeta) := by
  refine ⟨rfl, rfl, rfl, rfl, rfl, rfl, rfl, ?_, rfl, rfl, rfl, rfl, rfl, rfl⟩
  refine ⟨?_, ?_, ?_, ?_, ?_, ?_, ?_⟩ <;> decide

/-! ## The startup schema check

The store-opening code is not under `src/` (only `metadata.rs` is), so
the protocol is modelled from the spec. -/

/-- The outcome of the startup schema check: the result and the list of
schema versions written to `SCHEMA_VERSION_KEY`, in order (empty list =
the store was not mutated). -/
structure SchemaCheckResult where
  result : Except StoreError Unit
  writes : List Nat
deriving Repr

/-- Modelled from the spec: the forward-migration chain of §4.1 step 3
(the migration procedure itself is external and not under `src/`).
Migrations run for each intermediate version in increasing order, never
skip versions, and each successful atomic step leaves the on-disk version
equal to its target before the next; a failing step aborts with
`MigrationFailed`. -/
def run_migrations (migrate : Nat → Bool) (cur target : Nat) :
    SchemaCheckResult :=
  if cur < target then
    if migrate cur then
      let rest := run_migrations migrate (cur + 1) target
      ⟨rest.result, (cur + 1) :: rest.writes⟩
    else ⟨.error (.MigrationFailed cur), []⟩
  else ⟨.ok (), []⟩
termination_by target - cur
decreasing_by omega

/-- Modelled from the spec: the schema-check protocol run once at node
startup (§4.1; the store-opening code is not under `src/`).  A missing
version means a fresh database and writes `CURRENT_SCHEMA_VERSION`; an
equal version proceeds; a smaller version runs the forward migrations; a
greater version is a downgrade attempt and fails with the distinct
`SchemaDowngrade` error without touching the store. -/
def schema_check (migrate : Nat → Bool) (on_disk : Option Nat) :
    SchemaCheckResult :=
  match on_disk with
  | none => ⟨.ok (), [CURRENT_SCHEMA_VERSION.as_u64]⟩
  | some v =>
    if v = CURRENT_SCHEMA_VERSION.as_u64 then ⟨.ok (), []⟩
    else if v < CURRENT_SCHEMA_VERSION.as_u64 then
      run_migrations migrate v CURRENT_SCHEMA_VERSION.as_u64
    else ⟨.error (.SchemaDowngrade v CURRENT_SCHEMA_VERSION.as_u64), []⟩

/-- C9: for every on-disk version strictly greater than 21 and every
behaviour of the external migration steps, opening fails with the
`SchemaDowngrade` error — a constructor distinct from every
`MigrationFailed` — and performs no write. -/
theorem schema_check_downgrade (migrate : Nat → Bool) (v : Nat)
    (h : 21 < v) :
    schema_check migrate (some v) =
      ⟨.error (.SchemaDowngrade v 21), []⟩ ∧
    ∀ w, (StoreError.SchemaDowngrade v 21) ≠ .MigrationFailed w := by
  have h1 : ¬ (v = 21) := by omega
  have h2 : ¬ (v < 21) := by omega
  constructor
  · simp [schema_check, h1, h2, CURRENT_SCHEMA_VERSION, SchemaVersion.as_u64]
  · intro w hcontra
    cases hcontra

/-- Witness for C9 at on-disk version `22 = CURRENT_SCHEMA_VERSION + 1`,
with migrations that would always succeed. -/
theorem schema_check_downgrade_witness :
    schema_check (fun _ => true) (some 22) =
      ⟨.error (.SchemaDowngrade 22 21), []⟩ :=
  (schema_check_downgrade (fun _ => true) 22 (by decide)).1
